import Mathlib

set_option maxRecDepth 16384

/-!
Verification of the healthcare-agent repository: a shallow embedding of the
tool layer (`src/tools/sqlite.py`) and the conversation loop / dispatcher
(`src/chat.py`, `src/chat_browser.py`), together with theorems settling the
frozen claims about the natural-language specification.

Modelling conventions:
* Python strings are modelled as Lean `String`; the character-level
  operations (strip, upper, substring test) are implemented on `List Char`
  so that they reduce inside the kernel.  `str.upper()`/`str.strip()` are
  modelled for ASCII text (the SQL keywords and all literals in the source
  are ASCII).
* A raised Python exception is modelled as an `Except.error` / a dedicated
  `raised` constructor carrying the exception message.
* The SQLite engine and the JSON decoder are external collaborators; they
  enter the embedding as explicit oracle parameters, while everything the
  repository's own code does (validation, query construction, rendering
  choice, control flow) is translated from the source.
-/

/-! ## Python string primitives (ASCII model, `List Char` based) -/

/-- `str.upper()` for ASCII text: uppercase every character. -/
def pyUpperData (l : List Char) : List Char := l.map Char.toUpper

/-- `str.strip()`: drop leading and trailing whitespace. -/
def pyStripData (l : List Char) : List Char :=
  (((l.dropWhile Char.isWhitespace).reverse).dropWhile Char.isWhitespace).reverse

/-- `query.strip().upper()` as used by `query_db`. -/
def stripUpper (s : String) : List Char := pyUpperData (pyStripData s.data)

/-- Whether `p` is a prefix of `l` (used for `startswith` and substring tests). -/
def startsWithL (l p : List Char) : Bool :=
  match p, l with
  | [], _ => true
  | _ :: _, [] => false
  | c :: p, x :: l => c = x && startsWithL l p

/-- Python's `sub in s` substring containment test. -/
def containsL (sub : List Char) : List Char → Bool
  | [] => sub.isEmpty
  | c :: rest => startsWithL (c :: rest) sub || containsL sub rest

/-- Python `str.format` restricted to one named replacement field: every
occurrence of the placeholder in `tmpl` is replaced by `arg` (fuel-based so
that it reduces in the kernel; fuel is the length of the template). -/
def replaceFuel (pat arg : List Char) : Nat → List Char → List Char
  | 0, l => l
  | _ + 1, [] => []
  | fuel + 1, c :: rest =>
      if startsWithL (c :: rest) pat ∧ pat ≠ [] then
        arg ++ replaceFuel pat arg fuel ((c :: rest).drop pat.length)
      else
        c :: replaceFuel pat arg fuel rest

/-- `tmpl.format(field = arg)` for a template whose only replacement field is
`pat` (e.g. `"\x7bdate_filter\x7d"`). -/
def pyFormat (tmpl pat arg : String) : String :=
  ⟨replaceFuel pat.data arg.data tmpl.data.length tmpl.data⟩

/-! ## Dates: the parts of `datetime` the source uses -/

/-- A parsed calendar date (`datetime` at midnight). -/
structure Ymd where
  y : Nat
  m : Nat
  d : Nat
deriving DecidableEq, Repr

/-- Gregorian leap-year test. -/
def isLeap (y : Nat) : Bool := (y % 4 = 0 && y % 100 ≠ 0) || y % 400 = 0

/-- Length of month `m` (1-12) of year `y`. -/
def daysInMonth (y m : Nat) : Nat :=
  if m = 2 then (if isLeap y then 29 else 28)
  else if m = 4 ∨ m = 6 ∨ m = 9 ∨ m = 11 then 30
  else 31

/-- Days of year `y` preceding month `m` (1-12). -/
def monthCum (y m : Nat) : Nat :=
  (match m with
   | 1 => 0 | 2 => 31 | 3 => 59 | 4 => 90 | 5 => 120 | 6 => 151
   | 7 => 181 | 8 => 212 | 9 => 243 | 10 => 273 | 11 => 304 | _ => 334)
  + (if isLeap y ∧ 3 ≤ m then 1 else 0)

/-- The dates `datetime` accepts: year in `MINYEAR..MAXYEAR`, month 1-12, day
within the month. -/
def validYmd (t : Ymd) : Prop :=
  1 ≤ t.y ∧ t.y ≤ 9999 ∧ 1 ≤ t.m ∧ t.m ≤ 12 ∧ 1 ≤ t.d ∧ t.d ≤ daysInMonth t.y t.m

instance : DecidablePred validYmd := fun t => by unfold validYmd; infer_instance

/-- Day number of a date (proleptic Gregorian, `0001-01-01` ↦ 1); differences
of this function are exactly `(dt2 - dt1).days` for midnight datetimes. -/
def toDays (t : Ymd) : Nat :=
  365 * (t.y - 1) + (t.y - 1) / 4 - (t.y - 1) / 100 + (t.y - 1) / 400
    + monthCum t.y t.m + t.d

/-- `datetime` comparison: lexicographic on (year, month, day). -/
def ymdLt (a b : Ymd) : Bool :=
  Nat.blt a.y b.y ||
    (a.y == b.y && (Nat.blt a.m b.m || (a.m == b.m && Nat.blt a.d b.d)))

def digitChar (n : Nat) : Char := Char.ofNat ('0'.toNat + n % 10)

/-- Render a year zero-padded to four digits (years here are ≤ 9999). -/
def pad4 (n : Nat) : String :=
  ⟨[digitChar (n / 1000), digitChar (n / 100), digitChar (n / 10), digitChar n]⟩

/-- Render a month or day zero-padded to two digits. -/
def pad2 (n : Nat) : String := ⟨[digitChar (n / 10), digitChar n]⟩

/-- `dt.strftime("%Y-%m-%d")`: the canonical `YYYY-MM-DD` rendering.  `%Y` is
modelled as zero-padded to four digits, CPython's documented rendering (a C
library may leave years below 1000 unpadded; all other fields agree). -/
def strftimeYmd (t : Ymd) : String := pad4 t.y ++ "-" ++ pad2 t.m ++ "-" ++ pad2 t.d

/-! ### `datetime.strptime`

A format string is modelled as a list of directives (`%Y`, `%m`, `%d`) and
literal characters — the directives the repository's formats use.  Parsing
follows CPython's `_strptime` regular expressions:
`%Y` is exactly four digits, `%m` is `1[0-2]|0[1-9]|[1-9]`, `%d` is
`3[0-1]|[1-2]\d|0[1-9]|[1-9]| [1-9]` (ordered alternatives with
backtracking), the whole input must be consumed, and the resulting numbers
must form a date `datetime` accepts.  Missing directives default to
1900-01-01.  Formats with a repeated directive are outside the model (CPython
rejects them when compiling the regex). -/

inductive FTok where
  | yy : FTok
  | mo : FTok
  | da : FTok
  | lit : Char → FTok
deriving DecidableEq, Repr

/-- Partly assembled `strptime` result. -/
structure PartYmd where
  oy : Option Nat
  om : Option Nat
  od : Option Nat

def digitVal (c : Char) : Nat := c.toNat - '0'.toNat

def setYv (v : Nat) (p : PartYmd) : PartYmd := { p with oy := some v }
def setMv (v : Nat) (p : PartYmd) : PartYmd := { p with om := some v }
def setDv (v : Nat) (p : PartYmd) : PartYmd := { p with od := some v }

/-- Value of the two-digit `%m` alternatives (`1[0-2]|0[1-9]`), if matched. -/
def month2 (c1 c2 : Char) : Option Nat :=
  if c1 = '1' ∧ '0' ≤ c2 ∧ c2 ≤ '2' then some (10 + digitVal c2)
  else if c1 = '0' ∧ '1' ≤ c2 ∧ c2 ≤ '9' then some (digitVal c2)
  else none

/-- Value of the two-digit `%d` alternatives (`3[0-1]|[1-2]\d|0[1-9]`), if
matched. -/
def day2 (c1 c2 : Char) : Option Nat :=
  if c1 = '3' ∧ '0' ≤ c2 ∧ c2 ≤ '1' then some (30 + digitVal c2)
  else if ('1' ≤ c1 ∧ c1 ≤ '2') ∧ c2.isDigit then some (10 * digitVal c1 + digitVal c2)
  else if c1 = '0' ∧ '1' ≤ c2 ∧ c2 ≤ '9' then some (digitVal c2)
  else none

/-- Run a format against the input characters, with the regex's ordered
alternatives and backtracking; succeeds only if the input is fully consumed
(CPython's "unconverted data remains" check). -/
def runFmt : List FTok → List Char → Option PartYmd
  | [], [] => some ⟨none, none, none⟩
  | [], _ :: _ => none
  | .lit _ :: _, [] => none
  | .lit c :: toks, x :: cs => if x = c then runFmt toks cs else none
  | .yy :: _, [] => none
  | .yy :: _, [_] => none
  | .yy :: _, [_, _] => none
  | .yy :: _, [_, _, _] => none
  | .yy :: toks, c1 :: c2 :: c3 :: c4 :: cs =>
      if c1.isDigit ∧ c2.isDigit ∧ c3.isDigit ∧ c4.isDigit then
        (runFmt toks cs).map
          (setYv (1000 * digitVal c1 + 100 * digitVal c2 + 10 * digitVal c3 + digitVal c4))
      else none
  | .mo :: _, [] => none
  | .mo :: toks, [c1] =>
      if '1' ≤ c1 ∧ c1 ≤ '9' then (runFmt toks []).map (setMv (digitVal c1)) else none
  | .mo :: toks, c1 :: c2 :: cs =>
      (match month2 c1 c2 with
       | some v =>
           match (runFmt toks cs).map (setMv v) with
           | some r => some r
           | none =>
               if '1' ≤ c1 ∧ c1 ≤ '9' then (runFmt toks (c2 :: cs)).map (setMv (digitVal c1))
               else none
       | none =>
           if '1' ≤ c1 ∧ c1 ≤ '9' then (runFmt toks (c2 :: cs)).map (setMv (digitVal c1))
           else none)
  | .da :: _, [] => none
  | .da :: toks, [c1] =>
      if '1' ≤ c1 ∧ c1 ≤ '9' then (runFmt toks []).map (setDv (digitVal c1)) else none
  | .da :: toks, c1 :: c2 :: cs =>
      -- the one-character alternatives `[1-9]` and `" [1-9]"` are mutually
      -- exclusive with each other, so the backtracking chain flattens
      (match day2 c1 c2 with
       | some v =>
           match (runFmt toks cs).map (setDv v) with
           | some r => some r
           | none =>
               if '1' ≤ c1 ∧ c1 ≤ '9' then (runFmt toks (c2 :: cs)).map (setDv (digitVal c1))
               else if c1 = ' ' ∧ '1' ≤ c2 ∧ c2 ≤ '9' then (runFmt toks cs).map (setDv (digitVal c2))
               else none
       | none =>
           if '1' ≤ c1 ∧ c1 ≤ '9' then (runFmt toks (c2 :: cs)).map (setDv (digitVal c1))
           else if c1 = ' ' ∧ '1' ≤ c2 ∧ c2 ≤ '9' then (runFmt toks cs).map (setDv (digitVal c2))
           else none)

/-- `datetime.strptime(s, fmt)`, returning `none` where CPython raises
`ValueError`. -/
def strptime (fmt : List FTok) (s : String) : Option Ymd :=
  match runFmt fmt s.data with
  | none => none
  | some p =>
      let t : Ymd := ⟨p.oy.getD 1900, p.om.getD 1, p.od.getD 1⟩
      if validYmd t then some t else none

/-- The format string `"%Y-%m-%d"`. -/
def fmtYmd : List FTok := [.yy, .lit '-', .mo, .lit '-', .da]

/-- Render a format back to its Python format-string text (for error
messages). -/
def renderFmt (fmt : List FTok) : String :=
  ⟨(fmt.map fun t =>
      match t with
      | .yy => ['%', 'Y']
      | .mo => ['%', 'm']
      | .da => ['%', 'd']
      | .lit c => [c]).flatten⟩

/-! ## `src/tools/sqlite.py` -/

/-- Connection modes: SQLite's read-only mode is requested through a
`file:...?mode=ro` URI; a plain `sqlite3.connect(db_path)` call opens the
database in the default read-write (and create) mode. -/
inductive ConnMode where
  | readOnly : ConnMode
  | readWrite : ConnMode
deriving DecidableEq, Repr

structure Conn where
  path : String
  mode : ConnMode
deriving DecidableEq, Repr

/-- `sqlite3.connect(db_path)` — the plain call the source makes; it does not
use a read-only URI, so the connection is read-write. -/
def sqlite3_connect (path : String) : Conn := ⟨path, ConnMode.readWrite⟩

/-- A result frame, as produced by `pd.read_sql_query` from a text-valued
SQLite result: column names plus rows of cells, `none` modelling SQL NULL
(rendered by pandas as the token `None` in an object column). -/
structure Df where
  cols : List String
  rows : List (List (Option String))
deriving DecidableEq, Repr

def cellStr : Option String → String
  | none => "None"
  | some s => s

/-- Width of column `j`: the maximum rendered width across the header and
every value of the column. -/
def colWidth (df : Df) (j : Nat) : Nat :=
  df.rows.foldr (fun r w => max (cellStr (r.getD j none)).length w) (df.cols.getD j "").length

/-- Right-justify `s` in a field of width `w`. -/
def rjust (w : Nat) (s : String) : String := ⟨List.replicate (w - s.length) ' ' ++ s.data⟩

/-- Python's `sep.join(parts)`. -/
def joinSep (sep : String) : List String → String
  | [] => ""
  | [s] => s
  | s :: rest => s ++ sep ++ joinSep sep rest

def headerLine (df : Df) : String :=
  joinSep " " ((List.range df.cols.length).map fun j => rjust (colWidth df j) (df.cols.getD j ""))

def rowLine (df : Df) (r : List (Option String)) : String :=
  joinSep " " ((List.range df.cols.length).map fun j => rjust (colWidth df j) (cellStr (r.getD j none)))

/-- `df.to_string(index=False)`, modelled from pandas' fixed-width text
formatting for text-valued frames: a header line then one line per row, each
column right-justified to its width, columns separated by one space, no
separator rule.  (pandas renders NULLs of numeric columns as `NaN`; the model
covers the object/text columns SQLite rows produce.) -/
def renderLines (df : Df) : List String := headerLine df :: df.rows.map (rowLine df)

def df_to_string (df : Df) : String := joinSep "\n" (renderLines df)

/-- A Python call outcome: a returned string or a raised exception. -/
inductive PyOutcome where
  | raised : String → PyOutcome
  | ok : String → PyOutcome
deriving DecidableEq, Repr

/-- The SQLite engine under `pd.read_sql_query(query, conn)`: an oracle from
the opened connection and query text to a frame or an execution error. -/
def SqlEngine : Type := Conn → String → Except String Df

def dangerous_keywords : List String :=
  ["INSERT", "UPDATE", "DELETE", "DROP", "CREATE", "ALTER", "TRUNCATE"]

/-- The validation phase of `query_db` (lines 25-34): the `SELECT` prefix
check, then the keyword scan (`keyword in query_upper` is Python substring
containment), returning the `ValueError` message if the query is rejected. -/
def query_db_filter (query : String) : Option String :=
  let query_upper := stripUpper query
  if ¬ startsWithL query_upper "SELECT".data then
    some "Only SELECT queries are allowed. This is a read-only function."
  else
    match dangerous_keywords.find? (fun kw => containsL kw.data query_upper) with
    | some kw => some ("Query contains forbidden keyword: " ++ kw ++ ". This is a read-only function.")
    | none => none

/-- `query_db(query, db_path)`.  The first component is the trace of store
connections the call opened; the second is the call's outcome.  After the
filter, the source opens `sqlite3.connect(db_path)` and catches every
engine exception, rendering `Error executing query: ...`. -/
def query_db (engine : SqlEngine) (query : String) (db_path : String) : List Conn × PyOutcome :=
  match query_db_filter query with
  | some msg => ([], PyOutcome.raised msg)
  | none =>
      let conn := sqlite3_connect db_path
      match engine conn query with
      | .ok df =>
          ([conn], PyOutcome.ok (if df.rows.isEmpty then "No results found." else df_to_string df))
      | .error e => ([conn], PyOutcome.ok ("Error executing query: " ++ e))

/-! ### `get_patient_data` -/

structure TableConfig where
  query : String
  title : String
  dateFilterable : Bool
  dateColumn : Option String
deriving DecidableEq, Repr

/-- The `available_tables` registry, in the source's (insertion) order, with
the exact template texts. -/
def available_tables : List (String × TableConfig) :=
  [("demographics",
    ⟨"\n                SELECT Id, BIRTHDATE, GENDER, RACE, ETHNICITY, MARITAL, ADDRESS, CITY, STATE, ZIP,\n                   CAST((julianday(\x27now\x27) - julianday(BIRTHDATE)) / 365.25 AS INTEGER) AS AGE\n                FROM patients\n                WHERE Id = ?\n            ",
     "DEMOGRAPHICS", false, none⟩),
   ("medications",
    ⟨"\n                SELECT START, STOP, DESCRIPTION\n                FROM medications\n                WHERE PATIENT = ?\n                {date_filter}\n                ORDER BY START DESC\n            ",
     "MEDICATIONS", true, some "START"⟩),
   ("labs",
    ⟨"\n                SELECT DATE, CATEGORY, DESCRIPTION, VALUE, UNITS, TYPE\n                FROM observations\n                WHERE PATIENT = ?\n                {date_filter}\n                ORDER BY DATE DESC\n            ",
     "LABS", true, some "DATE"⟩),
   ("lab_tests_only",
    ⟨"\n                SELECT DISTINCT DESCRIPTION\n                FROM observations\n                WHERE PATIENT = ?\n                {date_filter}\n                ORDER BY DESCRIPTION\n            ",
     "LAB TEST NAMES", true, some "DATE"⟩),
   ("imaging",
    ⟨"\n                SELECT DATE, BODYSITE_DESCRIPTION, MODALITY_DESCRIPTION, SOP_DESCRIPTION\n                FROM imaging_studies\n                WHERE PATIENT = ?\n                {date_filter}\n                ORDER BY DATE DESC\n            ",
     "IMAGING", true, some "DATE"⟩),
   ("procedures",
    ⟨"\n                SELECT START, STOP, DESCRIPTION, CODE, SYSTEM\n                FROM procedures\n                WHERE PATIENT = ?\n                {date_filter}\n                ORDER BY START DESC\n            ",
     "PROCEDURES", true, some "START"⟩),
   ("conditions",
    ⟨"\n                SELECT START, STOP, DESCRIPTION, CODE, SYSTEM\n                FROM conditions\n                WHERE PATIENT = ?\n                {date_filter}\n                ORDER BY START DESC\n            ",
     "CONDITIONS", true, some "START"⟩),
   ("problem_list",
    ⟨"\n                SELECT DISTINCT DESCRIPTION\n                FROM conditions\n                WHERE PATIENT = ?\n                {date_filter}\n                ORDER BY DESCRIPTION\n            ",
     "PROBLEM LIST", true, some "START"⟩),
   ("encounters",
    ⟨"\n                SELECT START, STOP, DESCRIPTION, ENCOUNTERCLASS, ORGANIZATION, PROVIDER\n                FROM encounters\n                WHERE PATIENT = ?\n                {date_filter}\n                ORDER BY START DESC\n            ",
     "ENCOUNTERS", true, some "START"⟩),
   ("allergies",
    ⟨"\n                SELECT START, STOP, DESCRIPTION, TYPE, CATEGORY, DESCRIPTION1, SEVERITY1\n                FROM allergies\n                WHERE PATIENT = ?\n                {date_filter}\n                ORDER BY START DESC\n            ",
     "ALLERGIES", true, some "START"⟩),
   ("immunizations",
    ⟨"\n                SELECT DATE, DESCRIPTION, CODE, BASE_COST\n                FROM immunizations\n                WHERE PATIENT = ?\n                {date_filter}\n                ORDER BY DATE DESC\n            ",
     "IMMUNIZATIONS", true, some "DATE"⟩),
   ("careplans",
    ⟨"\n                SELECT START, STOP, DESCRIPTION, CODE\n                FROM careplans\n                WHERE PATIENT = ?\n                {date_filter}\n                ORDER BY START DESC\n            ",
     "CARE PLANS", true, some "START"⟩),
   ("devices",
    ⟨"\n                SELECT START, STOP, DESCRIPTION, CODE, UDI\n                FROM devices\n                WHERE PATIENT = ?\n                {date_filter}\n                ORDER BY START DESC\n            ",
     "DEVICES", true, some "START"⟩)]

/-- `", ".join(available_tables.keys())`. -/
def availableNames : String := joinSep ", " (available_tables.map Prod.fst)

/-- Python truthiness of an `Optional[str]`: `None` and `""` are falsy. -/
def truthyOpt : Option String → Bool
  | none => false
  | some s => !s.data.isEmpty

/-- Date-range validation of `get_patient_data` (lines 112-127): both dates
required together, `%Y-%m-%d` reparse with the inequality error re-raised and
any parse error replaced by the fixed message, and both dates re-rendered
with `strftime`. -/
def gpdValidate (start_date end_date : Option String) :
    Except String (Option String × Option String) :=
  if truthyOpt start_date ∧ truthyOpt end_date then
    match strptime fmtYmd (start_date.getD ""), strptime fmtYmd (end_date.getD "") with
    | some s, some e =>
        if ymdLt e s then Except.error "Start date cannot be after end date"
        else Except.ok (some (strftimeYmd s), some (strftimeYmd e))
    | _, _ => Except.error "Invalid date format. Expected format: YYYY-MM-DD"
  else if truthyOpt start_date ∨ truthyOpt end_date then
    Except.error "Both start_date and end_date must be provided together"
  else Except.ok (start_date, end_date)

/-- The engine under `pd.read_sql_query(query, conn, params=...)`: an oracle
from query text and parameter list to a frame or an execution error. -/
def GpdEngine : Type := String → List String → Except String Df

/-- The parameter tuple `(patient_id,)` — the only bound parameters the
source ever passes. -/
def gpdParams (patient_id : String) : List String := [patient_id]

/-- The interpolated date-filter clause
`f"AND {date_column} >= '{start_date}' AND {date_column} <= '{end_date}'"`. -/
def date_filter_clause (col sd ed : String) : String :=
  "AND " ++ col ++ " >= \x27" ++ sd ++ "\x27 AND " ++ col ++ " <= \x27" ++ ed ++ "\x27"

/-- The query text executed for one known table: the static template with the
date-filter slot replaced by the interpolated clause (or by nothing). -/
def gpdQuery (cfg : TableConfig) (start_date end_date : Option String) : String :=
  let date_filter :=
    if truthyOpt start_date ∧ truthyOpt end_date ∧ cfg.dateFilterable then
      date_filter_clause (cfg.dateColumn.getD "START") (start_date.getD "") (end_date.getD "")
    else ""
  pyFormat cfg.query "{date_filter}" date_filter

/-- One iteration of the per-table loop (lines 294-323): unknown name →
"not found" block; known name → execute and render, with per-table error
isolation. -/
def gpdBlock (engine : GpdEngine) (patient_id : String)
    (start_date end_date : Option String) (table : String) : String :=
  match available_tables.find? (fun p => p.1 == table) with
  | none =>
      "== " ++ (⟨pyUpperData table.data⟩ : String) ++ " ==\nTable \x27" ++ table
        ++ "\x27 not found. Available tables: " ++ availableNames
  | some (_, cfg) =>
      match engine (gpdQuery cfg start_date end_date) (gpdParams patient_id) with
      | .ok df =>
          if !df.rows.isEmpty then "== " ++ cfg.title ++ " ==\n" ++ df_to_string df
          else "== " ++ cfg.title ++ " ==\nNo " ++ table ++ " found."
      | .error e => "== " ++ cfg.title ++ " ==\nError retrieving " ++ table ++ ": " ++ e

/-- The body of `get_patient_data` after validation: the empty-list early
return, then the imperative `results` accumulator loop and the final
`"\n\n".join(results)`. -/
def gpdCore (engine : GpdEngine) (patient_id : String) (tables : List String)
    (start_date end_date : Option String) : Except String String :=
  if tables.isEmpty then
    Except.ok ("No tables specified. Available tables: " ++ availableNames)
  else
    Except.ok (joinSep "\n\n"
      (tables.foldl (fun acc t => acc ++ [gpdBlock engine patient_id start_date end_date t]) []))

/-- `get_patient_data(patient_id, tables, start_date, end_date)`. -/
def get_patient_data (engine : GpdEngine) (patient_id : String) (tables : List String)
    (start_date end_date : Option String) : Except String String :=
  match gpdValidate start_date end_date with
  | .error e => Except.error e
  | .ok (sd, ed) => gpdCore engine patient_id tables sd ed

/-! ### `compare_dates` -/

structure DateCompareResult where
  date1_earlier : Bool
  date2_earlier : Bool
  dates_equal : Bool
  difference_days : Nat
  date1_parsed : String
  date2_parsed : String
deriving DecidableEq, Repr

/-- Stand-in for the `ValueError` text `strptime` raises (only the outer
message, which names the expected format, is specified behaviour). -/
def strptimeErr (fmt : List FTok) (s : String) : String :=
  "time data \x27" ++ s ++ "\x27 does not match format \x27" ++ renderFmt fmt ++ "\x27"

/-- `compare_dates(date1, date2, date_format)` (the unused `db_path`
parameter is omitted); formats are modelled as directive lists, with
`renderFmt` giving the Python format-string text. -/
def compare_dates (date1 date2 : String) (fmt : List FTok) : Except String DateCompareResult :=
  match strptime fmt date1 with
  | none =>
      Except.error ("Invalid date format. Expected format: " ++ renderFmt fmt
        ++ ". Error: " ++ strptimeErr fmt date1)
  | some t1 =>
      match strptime fmt date2 with
      | none =>
          Except.error ("Invalid date format. Expected format: " ++ renderFmt fmt
            ++ ". Error: " ++ strptimeErr fmt date2)
      | some t2 =>
          Except.ok
            { date1_earlier := ymdLt t1 t2
              date2_earlier := ymdLt t2 t1
              dates_equal := t1 == t2
              difference_days := ((toDays t2 : Int) - (toDays t1 : Int)).natAbs
              date1_parsed := strftimeYmd t1
              date2_parsed := strftimeYmd t2 }

/-! ## `src/chat.py`: streamed tool-call reconstruction (lines 149-186) -/

/-- A `delta.tool_calls[k].function` fragment.  `None` and the empty string
behave identically under the source's truthiness guards, so absent fields are
modelled as `""`. -/
structure FnFrag where
  name : String
  arguments : String
deriving DecidableEq, Repr

/-- One streamed tool-call delta: `index`, `id`, and the optional `function`
object. -/
structure ToolCallDelta where
  index : Option Nat
  id : String
  function : Option FnFrag
deriving DecidableEq, Repr

/-- An accumulator entry of `assistant_message["tool_calls"]`. -/
structure ToolCallAcc where
  id : String
  name : String
  arguments : String
deriving DecidableEq, Repr

def emptyAcc : ToolCallAcc := ⟨"", "", ""⟩

/-- Merging one fragment into its accumulator (lines 162-168): `id` and
`name` are overwritten only by a truthy (non-empty) incoming value;
`arguments` is extended by `+=`. -/
def applyFrag (a : ToolCallAcc) (d : ToolCallDelta) : ToolCallAcc :=
  let a := if d.id ≠ "" then { a with id := d.id } else a
  match d.function with
  | none => a
  | some f =>
      let a := if f.name ≠ "" then { a with name := f.name } else a
      if f.arguments ≠ "" then { a with arguments := a.arguments ++ f.arguments } else a

/-- `while len(tool_calls) <= index: append empty accumulator`. -/
def extendAccs (accs : List ToolCallAcc) (n : Nat) : List ToolCallAcc :=
  accs ++ List.replicate (n - accs.length) emptyAcc

/-- Processing one streamed delta (lines 150-168); a fragment without an
index is ignored. -/
def stepDelta (accs : List ToolCallAcc) (d : ToolCallDelta) : List ToolCallAcc :=
  match d.index with
  | none => accs
  | some i =>
      let accs := extendAccs accs (i + 1)
      accs.set i (applyFrag (accs.getD i emptyAcc) d)

/-- The registry of accumulators after the whole delta stream. -/
def reconstruct (ds : List ToolCallDelta) : List ToolCallAcc := ds.foldl stepDelta []

/-- Stream end (lines 173-186): keep, in order, the accumulators whose `id`
is non-empty ("only add if it has an ID"). -/
def finalizeCalls (accs : List ToolCallAcc) : List ToolCallAcc :=
  accs.foldl (fun out tc => if tc.id ≠ "" then out ++ [tc] else out) []

/-! ## The tool dispatcher (`execute_function`) and the per-turn tool loop -/

/-- The dispatcher's collaborators: the JSON decoder (`json.loads`, an error
modelling the raised `JSONDecodeError`) and the tool implementations behind
`FUNCTION_MAP` (an error modelling an exception raised by the tool). -/
structure ToolEnv (Args : Type) where
  jsonLoads : String → Except String Args
  known : List String
  run : String → Args → Except String String

/-- `execute_function` (identical in `chat.py` and `chat_browser.py`):
unknown name → error text; a raised tool exception → caught and rendered;
never raises. -/
def execute_function {Args : Type} (env : ToolEnv Args) (function_name : String)
    (arguments : Args) : String :=
  if ¬ env.known.contains function_name then
    "Error: Function " ++ function_name ++ " not found."
  else
    match env.run function_name arguments with
    | .ok r => r
    | .error e => "Error executing " ++ function_name ++ ": " ++ e

structure ToolMsg where
  tool_call_id : String
  content : String
deriving DecidableEq, Repr

/-- Outcome of the per-turn tool-call loop of `chat_loop` (lines 207-236):
either every call produced a tool message, or an exception escaped to the
turn-level `except`, which prints the error and ends the turn (`break`),
keeping only the messages appended before it. -/
inductive TurnToolOutcome where
  | completed : List ToolMsg → TurnToolOutcome
  | aborted : List ToolMsg → String → TurnToolOutcome
deriving DecidableEq, Repr

/-- The per-turn tool loop of `chat_loop` (lines 209-228): for each call,
`json.loads` the argument text — this call sits outside any per-call handler,
so its exception propagates to the turn-level `except` — then dispatch and
append the tool message. -/
def processToolCalls {Args : Type} (env : ToolEnv Args) :
    List ToolCallAcc → TurnToolOutcome
  | [] => .completed []
  | c :: rest =>
      match env.jsonLoads c.arguments with
      | .error e => .aborted [] e
      | .ok args =>
          let r := execute_function env c.name args
          match processToolCalls env rest with
          | .completed ms => .completed (⟨c.id, r⟩ :: ms)
          | .aborted ms e => .aborted (⟨c.id, r⟩ :: ms) e

/-- The uniform envelope of `chat_browser.execute_tool`:
`{"success": true, "result": ...}` or `{"success": false, "error": ...}`,
modelled structurally. -/
structure Envelope where
  success : Bool
  payload : String
deriving DecidableEq, Repr

/-- `chat_browser.execute_tool` (lines 162-169): everything, including the
`json.loads` failure, is caught and returned as an error envelope. -/
def execute_tool {Args : Type} (env : ToolEnv Args) (function_name arguments_json : String) :
    Envelope :=
  match env.jsonLoads arguments_json with
  | .ok args => ⟨true, execute_function env function_name args⟩
  | .error e => ⟨false, e⟩

/-! ## Spec-side definitions (the claims' wording, for comparison) -/

/-- `sub` occurs in `s` (string decomposition). -/
def strContains (s sub : String) : Prop := ∃ p q, s = p ++ sub ++ q

/-- `kw` occurs in the character list as a standalone token: an occurrence
delimited by whitespace (or the ends) on both sides. -/
def standaloneTokenIn (kw : String) (l : List Char) : Prop :=
  ∃ p q, l = p ++ kw.data ++ q
    ∧ (∀ c, p.getLast? = some c → c.isWhitespace)
    ∧ (∀ c, q.head? = some c → c.isWhitespace)

/-- Left-justify `s` in a field of width `w` (the spec's stated alignment). -/
def ljust (w : Nat) (s : String) : String := ⟨s.data ++ List.replicate (w - s.length) ' '⟩

def specHeaderLine (df : Df) : String :=
  joinSep " " ((List.range df.cols.length).map fun j => ljust (colWidth df j) (df.cols.getD j ""))

def specRowLine (df : Df) (r : List (Option String)) : String :=
  joinSep " " ((List.range df.cols.length).map fun j => ljust (colWidth df j) (cellStr (r.getD j none)))

/-- The rendering claim C7 describes: header row, a dash rule spanning the
header's rendered width, then left-justified rows. -/
def specRender (df : Df) : String :=
  joinSep "\n" (specHeaderLine df
    :: (⟨List.replicate (specHeaderLine df).length '-'⟩ : String)
    :: df.rows.map (specRowLine df))

/-- Claim C7 as stated: every accepted query whose engine result is a
non-empty frame is rendered in the claimed dash-rule format. -/
def claimC7 : Prop :=
  ∀ (engine : SqlEngine) (q path : String) (df : Df),
    query_db_filter q = none →
    engine (sqlite3_connect path) q = .ok df →
    df.rows ≠ [] →
    (query_db engine q path).2 = PyOutcome.ok (specRender df)

/-- Claim C2 as stated: for a date-filterable table and a supplied range, the
two dates travel as bound parameter values, and the query text does not
depend on the date values (only on their presence). -/
def claimC2 : Prop :=
  ∀ (patient_id sd ed : String), sd ≠ "" → ed ≠ "" →
    ∀ cfg : TableConfig, cfg ∈ available_tables.map Prod.snd → cfg.dateFilterable = true →
      (sd ∈ gpdParams patient_id ∧ ed ∈ gpdParams patient_id) ∧
      ∀ sd2 ed2 : String, sd2 ≠ "" → ed2 ≠ "" →
        gpdQuery cfg (some sd) (some ed) = gpdQuery cfg (some sd2) (some ed2)

/-- Claim C3 as stated: a call with undecodable argument text still yields a
completed turn in which that call got a result message. -/
def claimC3 : Prop :=
  ∀ (env : ToolEnv Unit) (calls : List ToolCallAcc) (c : ToolCallAcc) (e : String),
    c ∈ calls → env.jsonLoads c.arguments = .error e →
    ∃ msgs, processToolCalls env calls = .completed msgs
      ∧ ∃ m ∈ msgs, m.tool_call_id = c.id

/-- Claim C6 as stated for every requested list (including the empty one):
the result is exactly the per-name blocks joined by a blank line. -/
def claimC6 : Prop :=
  ∀ (engine : GpdEngine) (patient_id : String) (tables : List String),
    get_patient_data engine patient_id tables none none =
      Except.ok (joinSep "\n\n" (tables.map (gpdBlock engine patient_id none none)))

/-! ## Concrete collaborators for witnesses and counterexamples -/

/-- An engine returning one fixed single-column, single-row frame. -/
def engineX : SqlEngine := fun _ _ => .ok ⟨["X"], [[some "y"]]⟩

/-- An engine whose every query returns an empty frame. -/
def engineEmpty : GpdEngine := fun _ _ => .ok ⟨["DESCRIPTION"], []⟩

/-- An engine returning a small demographics-shaped frame for every query. -/
def engineDemo : GpdEngine := fun _ _ => .ok ⟨["Id", "GENDER"], [[some "p1", some "F"]]⟩

/-- A three-fragment example stream: index 0 receives its name, two argument
pieces and (late) its id; index 1 never receives an id. -/
def streamEx : List ToolCallDelta :=
  [⟨some 0, "", some ⟨"get_db_schema", "\x7b\"db_"⟩⟩,
   ⟨some 0, "call_1", some ⟨"", "path\": \"./x.db\"\x7d"⟩⟩,
   ⟨some 1, "", some ⟨"orphan", "x"⟩⟩]

/-- A decoder accepting only the empty-object text. -/
def toolEnvStrict : ToolEnv Unit :=
  ⟨fun s => if s = "\x7b\x7d" then .ok () else .error "Expecting value: line 1 column 1 (char 0)",
   ["query_db", "get_db_schema"],
   fun _ _ => .ok "ran"⟩

/-- Last-non-empty-wins accumulation over a fragment sequence. -/
def lastNonEmptyFrom (init : String) (l : List String) : String :=
  l.foldl (fun acc x => if x ≠ "" then x else acc) init

/-- The `id` fragments addressed to call index `i`, in stream order. -/
def idFragsAt (i : Nat) (ds : List ToolCallDelta) : List String :=
  ds.filterMap (fun d => if d.index = some i then some d.id else none)

/-- The `function.name` fragments addressed to call index `i`. -/
def nameFragsAt (i : Nat) (ds : List ToolCallDelta) : List String :=
  ds.filterMap (fun d =>
    match d.index, d.function with
    | some j, some f => if j = i then some f.name else none
    | _, _ => none)

/-- The `function.arguments` fragments addressed to call index `i`. -/
def argFragsAt (i : Nat) (ds : List ToolCallDelta) : List String :=
  ds.filterMap (fun d =>
    match d.index, d.function with
    | some j, some f => if j = i then some f.arguments else none
    | _, _ => none)

/-- Concatenation of a fragment sequence. -/
def joinFrags (l : List String) : String := l.foldl (fun a b => a ++ b) ""

/-- The rendered width every line of `df_to_string df` shares: the column
widths plus one separating space between adjacent columns. -/
def renderWidth (df : Df) : Nat :=
  (((List.range df.cols.length).map fun j => colWidth df j).sum) + (df.cols.length - 1)

/-! ## Helper lemmas -/

theorem startsWithL_nil (l : List Char) : startsWithL l [] = true := by
  cases l <;> rfl

theorem startsWithL_self_append (p rest : List Char) : startsWithL (p ++ rest) p = true := by
  induction p with
  | nil => exact startsWithL_nil rest
  | cons c p ih =>
      show (c = c && startsWithL (p ++ rest) p) = true
      simp [ih]

theorem containsL_cons (sub : List Char) (c : Char) (rest : List Char) :
    containsL sub (c :: rest) = (startsWithL (c :: rest) sub || containsL sub rest) := rfl

theorem containsL_of_decomp (sub p q : List Char) : containsL sub (p ++ sub ++ q) = true := by
  induction p with
  | nil =>
      cases sub with
      | nil =>
          show containsL [] q = true
          induction q with
          | nil => rfl
          | cons c q ihq => rw [containsL_cons, startsWithL_nil]; simp
      | cons s ss =>
          show containsL (s :: ss) ((s :: ss) ++ q) = true
          rw [show (s :: ss) ++ q = s :: (ss ++ q) from rfl, containsL_cons]
          have := startsWithL_self_append (s :: ss) q
          rw [show (s :: ss) ++ q = s :: (ss ++ q) from rfl] at this
          simp [this]
  | cons c p ih =>
      show containsL sub (c :: (p ++ sub ++ q)) = true
      rw [containsL_cons, ih]
      simp

theorem strAppend_assoc (a b c : String) : a ++ b ++ c = a ++ (b ++ c) :=
  String.append_assoc a b c

theorem strContains_trans (s a b : String) (h1 : strContains s a) (h2 : strContains a b) :
    strContains s b := by
  obtain ⟨p, q, hpq⟩ := h1
  obtain ⟨u, v, huv⟩ := h2
  refine ⟨p ++ u, v ++ q, ?_⟩
  subst hpq huv
  simp only [strAppend_assoc]

theorem foldl_append_eq_map (f : String → String) (l : List String) :
    ∀ acc : List String, l.foldl (fun a t => a ++ [f t]) acc = acc ++ l.map f := by
  induction l with
  | nil => intro acc; simp
  | cons t l ih => intro acc; simp [List.foldl_cons, ih]

/-- `replaceFuel` really inserts its argument whenever the pattern occurs in
the scanned text. -/
theorem replaceFuel_contains (pat arg : List Char) (hpat : pat ≠ []) :
    ∀ (l : List Char) (fuel : Nat), l.length ≤ fuel → containsL pat l = true →
      ∃ p q, replaceFuel pat arg fuel l = p ++ arg ++ q := by
  intro l
  induction l with
  | nil =>
      intro fuel _ hcont
      cases pat with
      | nil => exact absurd rfl hpat
      | cons c rest => simp [containsL] at hcont
  | cons c rest ih =>
      intro fuel hfuel hcont
      cases fuel with
      | zero => simp at hfuel
      | succ f =>
          by_cases hs : startsWithL (c :: rest) pat = true
          · refine ⟨[], replaceFuel pat arg f ((c :: rest).drop pat.length), ?_⟩
            simp [replaceFuel, hs, hpat]
          · have hcont2 : containsL pat rest = true := by
              simp [containsL, hs] at hcont
              exact hcont
            obtain ⟨p, q, hpq⟩ := ih f (by simpa using hfuel) hcont2
            refine ⟨c :: p, q, ?_⟩
            simp [replaceFuel, hs, hpq]

/-! ## Claim theorems -/

/-- C1.  The claim says `query_db` opens the store in an enforced read-only
connection mode.  The source calls plain `sqlite3.connect(db_path)`: every
connection it ever opens is a default read-write connection, never a
read-only one — connection-level read-only enforcement does not exist in the
code (even though the tool's own description in `chat.py` advertises it). -/
theorem query_db_connection_readwrite :
    (∀ (engine : SqlEngine) (q path : String),
       (query_db engine q path).1 = []
         ∨ (query_db engine q path).1 = [Conn.mk path ConnMode.readWrite]) ∧
    (query_db engineX "SELECT 1" "./synthea_data.db").1
        = [Conn.mk "./synthea_data.db" ConnMode.readWrite] ∧
    ConnMode.readWrite ≠ ConnMode.readOnly := by
  refine ⟨?_, by decide, by decide⟩
  intro engine q path
  unfold query_db
  cases hf : query_db_filter q with
  | some msg => simp
  | none =>
      cases he : engine ⟨path, ConnMode.readWrite⟩ q with
      | ok df => simp [sqlite3_connect, he]
      | error e => simp [sqlite3_connect, he]

/-- C9.  Every query containing a forbidden write/DDL keyword as a standalone
token of its normalized text is rejected by `query_db` with a raised
`ValueError` before any store connection is opened (the filter's substring
test rejects a superset of the standalone-token occurrences). -/
theorem query_db_keyword_rejection (engine : SqlEngine) (q path kw : String)
    (hkw : kw ∈ dangerous_keywords) (htok : standaloneTokenIn kw (stripUpper q)) :
    (query_db engine q path).1 = [] ∧
      ∃ msg, (query_db engine q path).2 = PyOutcome.raised msg := by
  obtain ⟨p, r, hdecomp, -, -⟩ := htok
  have hcont : containsL kw.data (stripUpper q) = true := by
    rw [hdecomp]; exact containsL_of_decomp kw.data p r
  unfold query_db query_db_filter
  by_cases hs : startsWithL (stripUpper q) "SELECT".data = true
  · have hfind : (dangerous_keywords.find? (fun k => containsL k.data (stripUpper q))).isSome :=
      List.find?_isSome.mpr ⟨kw, hkw, hcont⟩
    obtain ⟨kw2, hkw2⟩ := Option.isSome_iff_exists.mp hfind
    simp [hs, hkw2]
  · simp [hs]

/-- C9 witness: `"SELECT 1 UPDATE 2"` contains `UPDATE` as a standalone token
and is rejected without a connection. -/
theorem query_db_keyword_rejection_witness :
    (query_db engineX "SELECT 1 UPDATE 2" "db").1 = [] ∧
      ∃ msg, (query_db engineX "SELECT 1 UPDATE 2" "db").2 = PyOutcome.raised msg := by
  refine query_db_keyword_rejection engineX "SELECT 1 UPDATE 2" "db" "UPDATE" (by decide)
    ⟨"SELECT 1 ".data, " 2".data, by decide, ?_, ?_⟩
  · intro c hc
    have h2 : some ' ' = some c := by rw [← hc]; decide
    cases h2; decide
  · intro c hc
    have h2 : some ' ' = some c := by rw [← hc]; decide
    cases h2; decide

/-- C10.  Any query whose stripped uppercased text does not begin with
`SELECT` — including read-only `WITH` common-table-expression queries — makes
`query_db` raise a `ValueError` before opening a connection, and conversely a
call that opened a connection had a `SELECT`-prefixed text. -/
theorem query_db_select_only :
    (∀ (engine : SqlEngine) (q path : String),
       startsWithL (stripUpper q) "SELECT".data = false →
       query_db engine q path
         = ([], PyOutcome.raised "Only SELECT queries are allowed. This is a read-only function.")) ∧
    (∀ (engine : SqlEngine) (q path : String),
       (query_db engine q path).1 ≠ [] →
       startsWithL (stripUpper q) "SELECT".data = true) ∧
    (∀ (engine : SqlEngine) (path : String),
       query_db engine "WITH t AS (SELECT 1) SELECT * FROM t" path
         = ([], PyOutcome.raised "Only SELECT queries are allowed. This is a read-only function.")) := by
  have h1 : ∀ (engine : SqlEngine) (q path : String),
      startsWithL (stripUpper q) "SELECT".data = false →
      query_db engine q path
        = ([], PyOutcome.raised "Only SELECT queries are allowed. This is a read-only function.") := by
    intro engine q path hs
    unfold query_db query_db_filter
    simp [hs]
  refine ⟨h1, ?_, ?_⟩
  · intro engine q path htrace
    by_cases hs : startsWithL (stripUpper q) "SELECT".data = true
    · exact hs
    · exact absurd (congrArg Prod.fst (h1 engine q path (by simpa using hs))) htrace
  · intro engine path
    exact h1 engine _ path (by decide)

/-- C10 witness: the concrete CTE query is rejected with the `SELECT`-only
message. -/
theorem query_db_select_only_witness :
    query_db engineX "WITH t AS (SELECT 1) SELECT * FROM t" "db"
      = ([], PyOutcome.raised "Only SELECT queries are allowed. This is a read-only function.") :=
  query_db_select_only.2.2 engineX "db"

theorem truthy_some_of_ne (s : String) (h : s ≠ "") : truthyOpt (some s) = true := by
  cases s with
  | mk l =>
      cases l with
      | nil => exact absurd rfl h
      | cons c cs => rfl

/-- For a non-empty table list the post-validation body is the per-name
blocks joined by a blank line. -/
theorem gpdCore_nonempty (engine : GpdEngine) (patient_id : String) (tables : List String)
    (sd ed : Option String) (hne : tables ≠ []) :
    gpdCore engine patient_id tables sd ed
      = Except.ok (joinSep "\n\n" (tables.map (gpdBlock engine patient_id sd ed))) := by
  cases tables with
  | nil => exact absurd rfl hne
  | cons t ts =>
      unfold gpdCore
      rw [if_neg (by simp)]
      rw [foldl_append_eq_map (gpdBlock engine patient_id sd ed) (t :: ts)]
      simp

/-- Without a truthy supplied range (or for a non-filterable table), the
executed text is the static template with an empty filter slot. -/
theorem gpdQuery_untruthy (cfg : TableConfig) (sd ed : Option String)
    (h : ¬ (truthyOpt sd = true ∧ truthyOpt ed = true ∧ cfg.dateFilterable = true)) :
    gpdQuery cfg sd ed = pyFormat cfg.query "{date_filter}" "" := by
  simp only [gpdQuery]
  rw [if_neg (by simpa using h)]

/-- C3 counterexample: in `chat_loop`, a tool call whose argument text is
undecodable does not get a result message — the decode error escapes the
per-call loop and aborts the turn's tool processing. -/
theorem dispatch_claimC3_false : ¬ claimC3 := by
  intro h
  obtain ⟨msgs, hm, -⟩ := h toolEnvStrict [⟨"id1", "query_db", "oops"⟩]
    ⟨"id1", "query_db", "oops"⟩ "Expecting value: line 1 column 1 (char 0)" (by simp) rfl
  rw [show processToolCalls toolEnvStrict [⟨"id1", "query_db", "oops"⟩]
        = TurnToolOutcome.aborted [] "Expecting value: line 1 column 1 (char 0)" from rfl] at hm
  cases hm

/-- C3 amended.  A parse failure of a call's argument text is handled
differently by the two dispatch surfaces: in `chat_loop` the `json.loads`
exception propagates past the per-call loop to the turn-level handler, which
ends the turn's tool processing after the messages already produced (the
failing call and its successors get no result message); in the browser
adapter's `execute_tool` the failure is caught and degrades to a
`success = false` error envelope without raising. -/
theorem dispatch_parse_failure :
    (∀ (Args : Type) (env : ToolEnv Args) (c : ToolCallAcc) (rest : List ToolCallAcc) (e : String),
       env.jsonLoads c.arguments = .error e →
       processToolCalls env (c :: rest) = TurnToolOutcome.aborted [] e) ∧
    (∀ (Args : Type) (env : ToolEnv Args) (pre : List ToolCallAcc) (c : ToolCallAcc)
       (rest : List ToolCallAcc) (e : String),
       (∀ c2 ∈ pre, ∃ a, env.jsonLoads c2.arguments = .ok a) →
       env.jsonLoads c.arguments = .error e →
       ∃ ms, processToolCalls env (pre ++ c :: rest) = TurnToolOutcome.aborted ms e
         ∧ ms.length = pre.length) ∧
    (∀ (Args : Type) (env : ToolEnv Args) (name args e : String),
       env.jsonLoads args = .error e →
       execute_tool env name args = ⟨false, e⟩) := by
  refine ⟨?_, ?_, ?_⟩
  · intro Args env c rest e hc
    simp [processToolCalls, hc]
  · intro Args env pre
    induction pre with
    | nil =>
        intro c rest e hpre hc
        exact ⟨[], by simp [processToolCalls, hc], rfl⟩
    | cons c2 pre ih =>
        intro c rest e hpre hc
        obtain ⟨a2, ha2⟩ := hpre c2 (by simp)
        obtain ⟨ms, hms, hlen⟩ := ih c rest e (fun x hx => hpre x (by simp [hx])) hc
        refine ⟨⟨c2.id, execute_function env c2.name a2⟩ :: ms, ?_, by simp [hlen]⟩
        show processToolCalls env (c2 :: (pre ++ c :: rest)) = _
        simp [processToolCalls, ha2, hms]
  · intro Args env name args e hj
    simp [execute_tool, hj]

/-- C3 witness: with a decoder rejecting `"oops"`, the terminal loop aborts
the turn with no result message, while the browser adapter returns the error
envelope. -/
theorem dispatch_parse_failure_witness :
    processToolCalls toolEnvStrict [⟨"id1", "query_db", "oops"⟩]
        = TurnToolOutcome.aborted [] "Expecting value: line 1 column 1 (char 0)" ∧
    execute_tool toolEnvStrict "query_db" "oops"
        = ⟨false, "Expecting value: line 1 column 1 (char 0)"⟩ :=
  ⟨dispatch_parse_failure.1 Unit toolEnvStrict ⟨"id1", "query_db", "oops"⟩ [] _ rfl,
   dispatch_parse_failure.2.2 Unit toolEnvStrict "query_db" "oops" _ rfl⟩

/-- C6 counterexample: for the empty requested list the result is not the
(empty) concatenation of per-name blocks but the
`"No tables specified. ..."` message. -/
theorem gpd_claimC6_false : ¬ claimC6 := by
  intro h
  have h2 := h engineEmpty "p1" []
  rw [show get_patient_data engineEmpty "p1" [] none none
        = Except.ok ("No tables specified. Available tables: " ++ availableNames) from rfl] at h2
  exact absurd (Except.ok.inj h2) (by decide)

/-- C6 amended.  For every non-empty requested list, `get_patient_data`
returns exactly the per-name blocks, in the caller's order, joined by a blank
line; an unknown name contributes a block titled by its uppercased name with
the "not found" message listing the valid names, without affecting the other
blocks.  (The empty list instead returns the `"No tables specified."`
message.) -/
theorem gpd_block_sequence (engine : GpdEngine) (patient_id : String) (tables : List String)
    (sd ed sd2 ed2 : Option String)
    (hval : gpdValidate sd ed = .ok (sd2, ed2)) (hne : tables ≠ []) :
    get_patient_data engine patient_id tables sd ed
      = Except.ok (joinSep "\n\n" (tables.map (gpdBlock engine patient_id sd2 ed2))) ∧
    ∀ t ∈ tables, available_tables.find? (fun p => p.1 == t) = none →
      gpdBlock engine patient_id sd2 ed2 t
        = "== " ++ (⟨pyUpperData t.data⟩ : String) ++ " ==\nTable \x27" ++ t
            ++ "\x27 not found. Available tables: " ++ availableNames := by
  constructor
  · unfold get_patient_data
    rw [hval]
    show gpdCore engine patient_id tables sd2 ed2 = _
    exact gpdCore_nonempty engine patient_id tables sd2 ed2 hne
  · intro t ht hfind
    unfold gpdBlock
    rw [hfind]

/-- C6 witness: the spec's own example, `["demographics", "bogus_table"]`. -/
theorem gpd_block_sequence_witness :
    get_patient_data engineDemo "p1" ["demographics", "bogus_table"] none none
      = Except.ok (joinSep "\n\n"
          (["demographics", "bogus_table"].map (gpdBlock engineDemo "p1" none none))) :=
  (gpd_block_sequence engineDemo "p1" ["demographics", "bogus_table"] none none none none rfl
    (by decide)).1

/-- `replaceFuel` result contains the argument whenever the pattern occurs. -/
theorem pyFormat_contains_arg (tmpl pat arg : String)
    (hpat : pat.data ≠ []) (hc : containsL pat.data tmpl.data = true) :
    strContains (pyFormat tmpl pat arg) arg := by
  obtain ⟨p, q, hpq⟩ :=
    replaceFuel_contains pat.data arg.data hpat tmpl.data tmpl.data.length le_rfl hc
  refine ⟨⟨p⟩, ⟨q⟩, ?_⟩
  apply String.ext
  show replaceFuel pat.data arg.data tmpl.data.length tmpl.data = _
  rw [hpq]
  simp [String.data_append, List.append_assoc]

theorem clause_contains (col sd ed : String) :
    strContains (date_filter_clause col sd ed) sd ∧
      strContains (date_filter_clause col sd ed) ed := by
  constructor
  · refine ⟨"AND " ++ col ++ " >= \x27",
      "\x27 AND " ++ col ++ " <= \x27" ++ ed ++ "\x27", ?_⟩
    apply String.ext
    simp [date_filter_clause, String.data_append, List.append_assoc]
  · refine ⟨"AND " ++ col ++ " >= \x27" ++ sd ++ "\x27 AND " ++ col ++ " <= \x27", "\x27", ?_⟩
    apply String.ext
    simp [date_filter_clause, String.data_append, List.append_assoc]

/-- C2 counterexample: for the `medications` template, two different supplied
date ranges produce two different query texts — the dates are interpolated
into the text, not bound. -/
theorem gpd_claimC2_false : ¬ claimC2 := by
  intro h
  have h2 := (h "p1" "2020-01-01" "2020-12-31" (by decide) (by decide)
      (available_tables.getD 1 ("", ⟨"", "", false, none⟩)).2 (by decide) (by decide)).2
    "2021-01-01" "2021-12-31" (by decide) (by decide)
  exact absurd h2 (by decide)

/-- C2 amended.  The date range is conveyed through the query text, not the
parameters: the only bound parameter is the patient identifier; for a
date-filterable table with a supplied range the built query text contains
both date strings (interpolated via the `date_filter` clause); and without a
supplied range (or for a non-filterable table) the text is the static
template with an empty `date_filter` slot.  The choice among static templates
and the presence of the clause remain the only programmatic choices. -/
theorem gpd_query_construction :
    (∀ patient_id : String, gpdParams patient_id = [patient_id]) ∧
    (∀ (cfg : TableConfig) (sd ed : String),
       cfg ∈ available_tables.map Prod.snd → cfg.dateFilterable = true →
       sd ≠ "" → ed ≠ "" →
       strContains (gpdQuery cfg (some sd) (some ed)) sd ∧
         strContains (gpdQuery cfg (some sd) (some ed)) ed) ∧
    (∀ (cfg : TableConfig) (sd ed : Option String),
       ¬ (truthyOpt sd = true ∧ truthyOpt ed = true ∧ cfg.dateFilterable = true) →
       gpdQuery cfg sd ed = pyFormat cfg.query "{date_filter}" "") := by
  refine ⟨fun _ => rfl, ?_, ?_⟩
  · intro cfg sd ed hmem hfil hsd hed
    have hq : gpdQuery cfg (some sd) (some ed)
        = pyFormat cfg.query "{date_filter}"
            (date_filter_clause (cfg.dateColumn.getD "START") sd ed) := by
      simp only [gpdQuery]
      rw [if_pos ⟨truthy_some_of_ne sd hsd, truthy_some_of_ne ed hed, hfil⟩]
      simp
    rw [hq]
    have hc : containsL "{date_filter}".data cfg.query.data = true := by
      simp [available_tables] at hmem
      rcases hmem with rfl | rfl | rfl | rfl | rfl | rfl | rfl | rfl | rfl | rfl | rfl | rfl | rfl <;>
        first
          | exact absurd hfil (by decide)
          | decide
    exact ⟨strContains_trans _ _ _ (pyFormat_contains_arg _ _ _ (by decide) hc)
        (clause_contains _ sd ed).1,
      strContains_trans _ _ _ (pyFormat_contains_arg _ _ _ (by decide) hc)
        (clause_contains _ sd ed).2⟩
  · exact gpdQuery_untruthy

/-- C2 witness: the medications query text contains the supplied start date,
and the parameter list is just the patient identifier. -/
theorem gpd_query_construction_witness :
    gpdParams "p9" = ["p9"] ∧
    strContains
      (gpdQuery (available_tables.getD 1 ("", ⟨"", "", false, none⟩)).2
        (some "2020-01-01") (some "2020-12-31")) "2020-01-01" :=
  ⟨gpd_query_construction.1 "p9",
   (gpd_query_construction.2.1 _ "2020-01-01" "2020-12-31" (by decide) (by decide)
     (by decide) (by decide)).1⟩

theorem rjust_length (w : Nat) (s : String) (h : s.length ≤ w) : (rjust w s).length = w := by
  show (List.replicate (w - s.length) ' ' ++ s.data).length = w
  have h2 : s.data.length ≤ w := h
  simp [List.length_append, List.length_replicate]
  omega

theorem le_fold_width_init {α : Type} (f : α → Nat) (init : Nat) (l : List α) :
    init ≤ l.foldr (fun x w => max (f x) w) init := by
  induction l with
  | nil => exact le_rfl
  | cons x l ih => exact le_trans ih (le_max_right _ _)

theorem le_fold_width_mem {α : Type} (f : α → Nat) (init : Nat) (l : List α) (x : α)
    (hx : x ∈ l) : f x ≤ l.foldr (fun x w => max (f x) w) init := by
  induction l with
  | nil => cases hx
  | cons y l ih =>
      rcases List.mem_cons.mp hx with rfl | hx2
      · exact le_max_left _ _
      · exact le_trans (ih hx2) (le_max_right _ _)

theorem header_le_colWidth (df : Df) (j : Nat) : (df.cols.getD j "").length ≤ colWidth df j :=
  le_fold_width_init _ _ _

theorem cell_le_colWidth (df : Df) (j : Nat) (r : List (Option String)) (hr : r ∈ df.rows) :
    (cellStr (r.getD j none)).length ≤ colWidth df j :=
  le_fold_width_mem (fun r => (cellStr (r.getD j none)).length) _ df.rows r hr

theorem joinSep_length (sep : String) (l : List String) :
    (joinSep sep l).length = (l.map String.length).sum + sep.length * (l.length - 1) := by
  induction l with
  | nil => simp [joinSep]
  | cons s rest ih =>
      cases rest with
      | nil => simp [joinSep]
      | cons s2 r2 =>
          show (s ++ sep ++ joinSep sep (s2 :: r2)).length = _
          rw [String.length_append, String.length_append, ih]
          simp only [List.map_cons, List.sum_cons, List.length_cons, Nat.add_sub_cancel]
          ring

/-- Every line of the fixed-width rendering has the same length: the sum of
the column widths plus the separating spaces. -/
theorem line_length (df : Df) (g : Nat → String)
    (hg : ∀ j, j < df.cols.length → (g j).length ≤ colWidth df j) :
    (joinSep " " ((List.range df.cols.length).map fun j => rjust (colWidth df j) (g j))).length
      = renderWidth df := by
  rw [joinSep_length]
  have hmap : (List.map (fun j => rjust (colWidth df j) (g j)) (List.range df.cols.length)).map
        String.length
      = List.map (fun j => colWidth df j) (List.range df.cols.length) := by
    rw [List.map_map]
    exact List.map_congr_left (fun j hj => rjust_length _ _ (hg j (List.mem_range.mp hj)))
  rw [hmap, show (" " : String).length = 1 from rfl]
  simp [renderWidth, List.length_map, List.length_range]

/-- C7 counterexample: an accepted query returning the one-cell frame
`(X | y)` is rendered `"X\ny"`, not the claimed dash-rule format
`"X\n-\ny"`. -/
theorem query_db_claimC7_false : ¬ claimC7 := by
  intro h
  have h2 := h engineX "SELECT X FROM t" "db" ⟨["X"], [[some "y"]]⟩ (by decide) rfl (by simp)
  exact absurd h2 (by decide)

/-- C7 amended.  A zero-row result is rendered as the literal
`"No results found."`; a non-empty result is rendered by pandas'
`to_string(index=False)`: a header line and one line per row — no separator
rule — with every column right-justified to the maximum rendered width
across header and values (absent text values appearing as `None`), so all
`1 + n` lines share one width. -/
theorem query_db_rendering (engine : SqlEngine) (q path : String) (df : Df)
    (hf : query_db_filter q = none) (he : engine (sqlite3_connect path) q = .ok df) :
    (df.rows = [] → (query_db engine q path).2 = PyOutcome.ok "No results found.") ∧
    (df.rows ≠ [] → (query_db engine q path).2 = PyOutcome.ok (df_to_string df)) ∧
    (renderLines df).length = 1 + df.rows.length ∧
    (∀ l ∈ renderLines df, l.length = renderWidth df) := by
  have hq : query_db engine q path
      = ([sqlite3_connect path],
         PyOutcome.ok (if df.rows.isEmpty then "No results found." else df_to_string df)) := by
    simp [query_db, hf, he]
  refine ⟨?_, ?_, ?_, ?_⟩
  · intro hrows
    rw [hq]
    simp [hrows]
  · intro hrows
    rw [hq]
    cases hrows2 : df.rows with
    | nil => exact absurd hrows2 hrows
    | cons r rs => simp [hrows2]
  · simp [renderLines, Nat.add_comm]
  · intro l hl
    simp only [renderLines, List.mem_cons, List.mem_map] at hl
    rcases hl with rfl | ⟨r, hr, rfl⟩
    · exact line_length df (fun j => df.cols.getD j "") (fun j _ => header_le_colWidth df j)
    · exact line_length df (fun j => cellStr (r.getD j none))
        (fun j _ => cell_le_colWidth df j r hr)

/-- C7 witness: the one-cell frame is rendered `df_to_string`-style and its
lines share one width. -/
theorem query_db_rendering_witness :
    (query_db engineX "SELECT X FROM t" "db").2
        = PyOutcome.ok (df_to_string ⟨["X"], [[some "y"]]⟩) ∧
    ∀ l ∈ renderLines (⟨["X"], [[some "y"]]⟩ : Df),
      l.length = renderWidth ⟨["X"], [[some "y"]]⟩ := by
  have h := query_db_rendering engineX "SELECT X FROM t" "db" ⟨["X"], [[some "y"]]⟩
    (by decide) rfl
  exact ⟨h.2.1 (by simp), h.2.2.2⟩

/-- C5.  Date-range validation of `get_patient_data`: exactly one truthy date
given → the "provided together" rejection; both given and parseable with
start after end → the ordering rejection; both given with a malformed one →
the format rejection; both given, parseable and ordered → the loop runs on
the canonically re-rendered `YYYY-MM-DD` strings; neither given → the loop
runs unfiltered over every requested table. -/
theorem gpd_date_validation (engine : GpdEngine) (patient_id : String) (tables : List String)
    (sd ed : Option String) :
    (truthyOpt sd = true → truthyOpt ed = false →
      get_patient_data engine patient_id tables sd ed
        = Except.error "Both start_date and end_date must be provided together") ∧
    (truthyOpt sd = false → truthyOpt ed = true →
      get_patient_data engine patient_id tables sd ed
        = Except.error "Both start_date and end_date must be provided together") ∧
    (∀ s e : Ymd, truthyOpt sd = true → truthyOpt ed = true →
      strptime fmtYmd (sd.getD "") = some s → strptime fmtYmd (ed.getD "") = some e →
      ymdLt e s = true →
      get_patient_data engine patient_id tables sd ed
        = Except.error "Start date cannot be after end date") ∧
    (truthyOpt sd = true → truthyOpt ed = true →
      (strptime fmtYmd (sd.getD "") = none ∨ strptime fmtYmd (ed.getD "") = none) →
      get_patient_data engine patient_id tables sd ed
        = Except.error "Invalid date format. Expected format: YYYY-MM-DD") ∧
    (∀ s e : Ymd, truthyOpt sd = true → truthyOpt ed = true →
      strptime fmtYmd (sd.getD "") = some s → strptime fmtYmd (ed.getD "") = some e →
      ymdLt e s = false →
      get_patient_data engine patient_id tables sd ed
        = gpdCore engine patient_id tables (some (strftimeYmd s)) (some (strftimeYmd e))) ∧
    (truthyOpt sd = false → truthyOpt ed = false → tables ≠ [] →
      get_patient_data engine patient_id tables sd ed
          = Except.ok (joinSep "\n\n" (tables.map (gpdBlock engine patient_id sd ed))) ∧
        ∀ cfg : TableConfig, gpdQuery cfg sd ed = pyFormat cfg.query "{date_filter}" "") := by
  refine ⟨?_, ?_, ?_, ?_, ?_, ?_⟩
  · intro hsd hed
    simp [get_patient_data, gpdValidate, hsd, hed]
  · intro hsd hed
    simp [get_patient_data, gpdValidate, hsd, hed]
  · intro s e hsd hed hs he hlt
    simp [get_patient_data, gpdValidate, hsd, hed, hs, he, hlt]
  · intro hsd hed hbad
    rcases hbad with hnone | hnone
    · simp [get_patient_data, gpdValidate, hsd, hed, hnone]
    · cases hcase : strptime fmtYmd (sd.getD "") with
      | none => simp [get_patient_data, gpdValidate, hsd, hed, hcase]
      | some s => simp [get_patient_data, gpdValidate, hsd, hed, hcase, hnone]
  · intro s e hsd hed hs he hlt
    simp [get_patient_data, gpdValidate, hsd, hed, hs, he, hlt]
  · intro hsd hed hne
    have hval : gpdValidate sd ed = Except.ok (sd, ed) := by
      simp [gpdValidate, hsd, hed]
    constructor
    · rw [show get_patient_data engine patient_id tables sd ed
            = gpdCore engine patient_id tables sd ed from by
          unfold get_patient_data; rw [hval]]
      exact gpdCore_nonempty engine patient_id tables sd ed hne
    · intro cfg
      exact gpdQuery_untruthy cfg sd ed (by simp [hsd])

/-- C5 witness: the three rejections and the canonicalizing pass at concrete
inputs. -/
theorem gpd_date_validation_witness :
    get_patient_data engineEmpty "p1" ["labs"] (some "2024-05-01") none
        = Except.error "Both start_date and end_date must be provided together" ∧
    get_patient_data engineEmpty "p1" ["labs"] (some "2024-06-02") (some "2024-01-01")
        = Except.error "Start date cannot be after end date" ∧
    get_patient_data engineEmpty "p1" ["labs"] (some "02-01-2024") (some "2024-01-05")
        = Except.error "Invalid date format. Expected format: YYYY-MM-DD" ∧
    get_patient_data engineEmpty "p1" ["labs"] (some "2024-1-5") (some "2024-02-07")
        = gpdCore engineEmpty "p1" ["labs"] (some "2024-01-05") (some "2024-02-07") ∧
    get_patient_data engineEmpty "p1" ["labs"] none none
        = Except.ok (joinSep "\n\n" (["labs"].map (gpdBlock engineEmpty "p1" none none))) := by
  have h1 := gpd_date_validation engineEmpty "p1" ["labs"] (some "2024-05-01") none
  have h2 := gpd_date_validation engineEmpty "p1" ["labs"] (some "2024-06-02") (some "2024-01-01")
  have h3 := gpd_date_validation engineEmpty "p1" ["labs"] (some "02-01-2024") (some "2024-01-05")
  have h4 := gpd_date_validation engineEmpty "p1" ["labs"] (some "2024-1-5") (some "2024-02-07")
  have h5 := gpd_date_validation engineEmpty "p1" ["labs"] none none
  refine ⟨h1.1 rfl rfl, ?_, ?_, ?_, ?_⟩
  · exact h2.2.2.1 ⟨2024, 6, 2⟩ ⟨2024, 1, 1⟩ rfl rfl (by decide) (by decide) (by decide)
  · exact h3.2.2.2.1 rfl rfl (Or.inl (by decide))
  · exact h4.2.2.2.2.1 ⟨2024, 1, 5⟩ ⟨2024, 2, 7⟩ rfl rfl (by decide) (by decide) (by decide)
  · exact (h5.2.2.2.2.2 rfl rfl (by decide)).1

theorem getD_replicate_self {α : Type} (a : α) (n i : Nat) :
    (List.replicate n a).getD i a = a := by
  induction n generalizing i with
  | zero => simp [List.getD]
  | succ n ih =>
      cases i with
      | zero => rfl
      | succ i => exact ih i

theorem extendAccs_getD (accs : List ToolCallAcc) (n i : Nat) :
    (extendAccs accs n).getD i emptyAcc = accs.getD i emptyAcc := by
  unfold extendAccs
  by_cases hi : i < accs.length
  · exact List.getD_append accs _ emptyAcc i hi
  · rw [List.getD_append_right accs _ emptyAcc i (Nat.le_of_not_lt hi)]
    rw [List.getD_eq_default accs emptyAcc (Nat.le_of_not_lt hi)]
    exact getD_replicate_self emptyAcc _ _

theorem stepDelta_getD (accs : List ToolCallAcc) (d : ToolCallDelta) (i : Nat) :
    (stepDelta accs d).getD i emptyAcc
      = if d.index = some i then applyFrag (accs.getD i emptyAcc) d
        else accs.getD i emptyAcc := by
  unfold stepDelta
  cases hidx : d.index with
  | none => simp
  | some j =>
      have hlen : j < (extendAccs accs (j + 1)).length := by
        simp [extendAccs, List.length_append, List.length_replicate]
        omega
      by_cases hji : j = i
      · subst hji
        rw [if_pos rfl, List.getD_eq_getElem?_getD, List.getElem?_set_self hlen,
          Option.getD_some, extendAccs_getD]
      · rw [List.getD_eq_getElem?_getD, List.getElem?_set_ne hji,
          ← List.getD_eq_getElem?_getD, extendAccs_getD]
        simp [Option.some_inj, hji]

theorem foldl_strAppend_shift (xs : List String) :
    ∀ a b : String, xs.foldl (fun x y => x ++ y) (a ++ b) = a ++ xs.foldl (fun x y => x ++ y) b := by
  induction xs with
  | nil => intro a b; rfl
  | cons x xs ih =>
      intro a b
      show xs.foldl _ (a ++ b ++ x) = _
      rw [strAppend_assoc, ih a (b ++ x)]
      rfl

theorem joinFrags_cons (x : String) (xs : List String) :
    joinFrags (x :: xs) = x ++ joinFrags xs := by
  show xs.foldl (fun a b => a ++ b) ("" ++ x) = x ++ xs.foldl (fun a b => a ++ b) ""
  rw [String.empty_append]
  have h := foldl_strAppend_shift xs x ""
  rw [String.append_empty] at h
  exact h

theorem reconstruct_getD (ds : List ToolCallDelta) :
    ∀ (accs : List ToolCallAcc) (i : Nat),
      (ds.foldl stepDelta accs).getD i emptyAcc
        = ⟨lastNonEmptyFrom ((accs.getD i emptyAcc).id) (idFragsAt i ds),
           lastNonEmptyFrom ((accs.getD i emptyAcc).name) (nameFragsAt i ds),
           (accs.getD i emptyAcc).arguments ++ joinFrags (argFragsAt i ds)⟩ := by
  induction ds with
  | nil =>
      intro accs i
      simp [lastNonEmptyFrom, idFragsAt, nameFragsAt, argFragsAt, joinFrags,
        String.append_empty]
  | cons d ds ih =>
      intro accs i
      rw [List.foldl_cons, ih (stepDelta accs d) i, stepDelta_getD]
      by_cases hd : d.index = some i
      · rw [if_pos hd]
        cases hf : d.function with
        | none =>
            have hid : idFragsAt i (d :: ds) = d.id :: idFragsAt i ds := by
              simp [idFragsAt, hd]
            have hname : nameFragsAt i (d :: ds) = nameFragsAt i ds := by
              simp [nameFragsAt, List.filterMap_cons, hd, hf]
            have harg : argFragsAt i (d :: ds) = argFragsAt i ds := by
              simp [argFragsAt, List.filterMap_cons, hd, hf]
            rw [hid, hname, harg]
            by_cases hdid : d.id = ""
            · simp [applyFrag, hf, hdid, lastNonEmptyFrom]
            · simp [applyFrag, hf, hdid, lastNonEmptyFrom]
        | some f =>
            obtain ⟨j, hj⟩ : ∃ j, d.index = some j := ⟨i, hd⟩
            have hji : j = i := by rw [hj] at hd; exact Option.some_inj.mp hd
            subst hji
            have hid : idFragsAt j (d :: ds) = d.id :: idFragsAt j ds := by
              simp [idFragsAt, hd]
            have hname : nameFragsAt j (d :: ds) = f.name :: nameFragsAt j ds := by
              simp [nameFragsAt, List.filterMap_cons, hj, hf]
            have harg : argFragsAt j (d :: ds) = f.arguments :: argFragsAt j ds := by
              simp [argFragsAt, List.filterMap_cons, hj, hf]
            rw [hid, hname, harg, joinFrags_cons]
            by_cases hdid : d.id = "" <;> by_cases hfn : f.name = "" <;>
              by_cases hfa : f.arguments = "" <;>
              simp [applyFrag, hf, hdid, hfn, hfa, lastNonEmptyFrom,
                String.empty_append, strAppend_assoc]
      · rw [if_neg hd]
        have hid : idFragsAt i (d :: ds) = idFragsAt i ds := by
          simp [idFragsAt, List.filterMap_cons, hd]
        have hname : nameFragsAt i (d :: ds) = nameFragsAt i ds := by
          cases hf : d.function <;> cases hidx : d.index <;>
            simp_all [nameFragsAt, List.filterMap_cons]
        have harg : argFragsAt i (d :: ds) = argFragsAt i ds := by
          cases hf : d.function <;> cases hidx : d.index <;>
            simp_all [argFragsAt, List.filterMap_cons]
        rw [hid, hname, harg]

theorem finalizeCalls_eq_filter (accs : List ToolCallAcc) :
    finalizeCalls accs = accs.filter (fun a => a.id != "") := by
  suffices h : ∀ acc, accs.foldl (fun out tc => if tc.id ≠ "" then out ++ [tc] else out) acc
      = acc ++ accs.filter (fun a => a.id != "") by
    rw [show finalizeCalls accs
          = accs.foldl (fun out tc => if tc.id ≠ "" then out ++ [tc] else out) [] from rfl,
      h []]
    rfl
  induction accs with
  | nil => intro acc; simp
  | cons t ts ih =>
      intro acc
      rw [List.foldl_cons]
      by_cases ht : t.id = ""
      · rw [if_neg (by simp [ht]), ih acc, List.filter_cons]
        simp [ht]
      · rw [if_pos ht, ih (acc ++ [t]), List.filter_cons]
        simp [ht, List.append_assoc]

/-- C4.  The accumulator at each call index merges the stream exactly as
claimed: its `id` and `name` are the last non-empty fragments addressed to
that index (empty fragments never overwrite), its argument text is the
concatenation, in stream order, of all argument fragments for the index;
stream end keeps, in ascending index order, exactly the accumulators whose
`id` is non-empty, and every finalized (dispatchable) call has a non-empty
`id`. -/
theorem delta_reconstruction (ds : List ToolCallDelta) :
    (∀ i : Nat,
      (reconstruct ds).getD i emptyAcc
        = ⟨lastNonEmptyFrom "" (idFragsAt i ds),
           lastNonEmptyFrom "" (nameFragsAt i ds),
           joinFrags (argFragsAt i ds)⟩) ∧
    finalizeCalls (reconstruct ds) = (reconstruct ds).filter (fun a => a.id != "") ∧
    (∀ a ∈ finalizeCalls (reconstruct ds), a.id ≠ "") := by
  refine ⟨?_, finalizeCalls_eq_filter _, ?_⟩
  · intro i
    have h := reconstruct_getD ds [] i
    simpa [reconstruct, emptyAcc, String.empty_append] using h
  · intro a ha
    rw [finalizeCalls_eq_filter] at ha
    have := List.of_mem_filter ha
    simpa using this

/-- C4 witness: a three-fragment stream for index 0 (argument text arriving
in two pieces, the id arriving late) plus an index-1 accumulator that never
receives an id: index 0 merges as claimed and every finalized call has an
id. -/
theorem delta_reconstruction_witness :
    (reconstruct streamEx).getD 0 emptyAcc
      = ⟨lastNonEmptyFrom "" (idFragsAt 0 streamEx),
         lastNonEmptyFrom "" (nameFragsAt 0 streamEx),
         joinFrags (argFragsAt 0 streamEx)⟩ ∧
    (⟨"call_1", "get_db_schema", "\x7b\"db_path\": \"./x.db\"\x7d"⟩ : ToolCallAcc).id ≠ "" :=
  ⟨(delta_reconstruction streamEx).1 0,
   (delta_reconstruction streamEx).2.2 _ (by decide)⟩

theorem monthCum_succ (y m : Nat) (h1 : 1 ≤ m) (h2 : m ≤ 11) :
    monthCum y (m + 1) = monthCum y m + daysInMonth y m := by
  interval_cases m <;> cases hl : isLeap y <;> simp [monthCum, daysInMonth, hl]

theorem monthCum_mono (y m m2 : Nat) (h1 : 1 ≤ m) (hlt : m < m2) (h2 : m2 ≤ 12) :
    monthCum y m + daysInMonth y m ≤ monthCum y m2 := by
  induction m2 with
  | zero => omega
  | succ k ih =>
      by_cases hk : m < k
      · have hle := ih hk (by omega)
        have hstep := monthCum_succ y k (by omega) (by omega)
        omega
      · have hmk : m = k := by omega
        subst hmk
        rw [monthCum_succ y m h1 (by omega)]

theorem days_le_daysInYear (t : Ymd) (h : validYmd t) :
    monthCum t.y t.m + t.d ≤ 365 + (if isLeap t.y then 1 else 0) := by
  obtain ⟨-, -, h3, h4, -, h6⟩ := h
  have hcap : monthCum t.y t.m + daysInMonth t.y t.m
      ≤ monthCum t.y 12 + daysInMonth t.y 12 := by
    by_cases hm : t.m = 12
    · rw [hm]
    · have := monthCum_mono t.y t.m 12 h3 (by omega) le_rfl
      omega
  have h12 : monthCum t.y 12 + daysInMonth t.y 12 = 365 + (if isLeap t.y then 1 else 0) := by
    cases hl : isLeap t.y <;> simp [monthCum, daysInMonth, hl]
  omega

theorem yearAux_succ (y : Nat) (h : 1 ≤ y) :
    365 * y + y / 4 - y / 100 + y / 400
      = (365 * (y - 1) + (y - 1) / 4 - (y - 1) / 100 + (y - 1) / 400) + 365
        + (if isLeap y then 1 else 0) := by
  obtain ⟨a, rfl⟩ : ∃ a, y = a + 1 := ⟨y - 1, by omega⟩
  simp only [Nat.add_sub_cancel]
  rw [Nat.succ_div a 4, Nat.succ_div a 100, Nat.succ_div a 400]
  have hdiv : a / 100 ≤ a / 4 := Nat.div_le_div_left (by norm_num) (by norm_num)
  have hiff : isLeap (a + 1) = true
      ↔ (((a + 1) % 4 = 0 ∧ (a + 1) % 100 ≠ 0) ∨ (a + 1) % 400 = 0) := by
    simp [isLeap]
  by_cases hl : (((a + 1) % 4 = 0 ∧ (a + 1) % 100 ≠ 0) ∨ (a + 1) % 400 = 0)
  · rw [if_pos (hiff.mpr hl)]
    by_cases b4 : 4 ∣ a + 1 <;> by_cases b100 : 100 ∣ a + 1 <;> by_cases b400 : 400 ∣ a + 1 <;>
      simp only [b4, b100, b400, if_true, if_false] <;> omega
  · rw [if_neg (fun hc => hl (hiff.mp hc))]
    by_cases b4 : 4 ∣ a + 1 <;> by_cases b100 : 100 ∣ a + 1 <;> by_cases b400 : 400 ∣ a + 1 <;>
      simp only [b4, b100, b400, if_true, if_false] <;> omega

theorem yearAux_mono (y1 y2 : Nat) (h1 : 1 ≤ y1) (hlt : y1 < y2) :
    365 * (y1 - 1) + (y1 - 1) / 4 - (y1 - 1) / 100 + (y1 - 1) / 400 + 365
        + (if isLeap y1 then 1 else 0)
      ≤ 365 * (y2 - 1) + (y2 - 1) / 4 - (y2 - 1) / 100 + (y2 - 1) / 400 := by
  induction y2 with
  | zero => omega
  | succ k ih =>
      by_cases hk : y1 < k
      · have hle := ih hk
        have hstep := yearAux_succ k (by omega)
        simp only [Nat.add_sub_cancel]
        omega
      · have hk2 : y1 = k := by omega
        subst hk2
        have hstep := yearAux_succ y1 h1
        simp only [Nat.add_sub_cancel]
        omega

theorem toDays_lt_of_lex (t1 t2 : Ymd) (h1 : validYmd t1) (h2 : validYmd t2)
    (hlex : t1.y < t2.y
      ∨ (t1.y = t2.y ∧ (t1.m < t2.m ∨ (t1.m = t2.m ∧ t1.d < t2.d)))) :
    toDays t1 < toDays t2 := by
  have hup := days_le_daysInYear t1 h1
  obtain ⟨c1, c2, c3, c4, c5, c6⟩ := h1
  obtain ⟨e1, e2, e3, e4, e5, e6⟩ := h2
  rcases hlex with hy | ⟨hy, hm | ⟨hm, hd⟩⟩
  · have hmono := yearAux_mono t1.y t2.y c1 hy
    unfold toDays
    omega
  · have hcap := monthCum_mono t1.y t1.m t2.m c3 hm e4
    unfold toDays
    rw [← hy]
    omega
  · unfold toDays
    rw [← hy, ← hm]
    omega

theorem ymdLt_iff_lex (t1 t2 : Ymd) :
    ymdLt t1 t2 = true
      ↔ (t1.y < t2.y ∨ (t1.y = t2.y ∧ (t1.m < t2.m ∨ (t1.m = t2.m ∧ t1.d < t2.d)))) := by
  simp [ymdLt, Nat.blt_eq]

theorem ymdLt_eq_decide_toDays (t1 t2 : Ymd) (h1 : validYmd t1) (h2 : validYmd t2) :
    ymdLt t1 t2 = decide (toDays t1 < toDays t2) := by
  by_cases hlex : (t1.y < t2.y ∨ (t1.y = t2.y ∧ (t1.m < t2.m ∨ (t1.m = t2.m ∧ t1.d < t2.d))))
  · have hdays := toDays_lt_of_lex t1 t2 h1 h2 hlex
    rw [(ymdLt_iff_lex t1 t2).mpr hlex, decide_eq_true hdays]
  · have hnot : ¬ toDays t1 < toDays t2 := by
      rcases Nat.lt_trichotomy t1.y t2.y with hy | hy | hy
      · exact absurd (Or.inl hy) hlex
      · rcases Nat.lt_trichotomy t1.m t2.m with hm | hm | hm
        · exact absurd (Or.inr ⟨hy, Or.inl hm⟩) hlex
        · rcases Nat.lt_trichotomy t1.d t2.d with hd | hd | hd
          · exact absurd (Or.inr ⟨hy, Or.inr ⟨hm, hd⟩⟩) hlex
          · have heq : t1 = t2 := by cases t1; cases t2; simp_all
            rw [heq]
            omega
          · have := toDays_lt_of_lex t2 t1 h2 h1 (Or.inr ⟨hy.symm, Or.inr ⟨hm.symm, hd⟩⟩)
            omega
        · have := toDays_lt_of_lex t2 t1 h2 h1 (Or.inr ⟨hy.symm, Or.inl hm⟩)
          omega
      · have := toDays_lt_of_lex t2 t1 h2 h1 (Or.inl hy)
        omega
    have hb : ymdLt t1 t2 = false := by
      rw [← Bool.not_eq_true, ymdLt_iff_lex]
      exact hlex
    rw [hb, decide_eq_false hnot]

theorem strptime_valid (fmt : List FTok) (s : String) (t : Ymd)
    (h : strptime fmt s = some t) : validYmd t := by
  unfold strptime at h
  split at h
  · cases h
  · dsimp only at h
    split at h
    · cases h
      assumption
    · cases h

/-- C8.  For parseable inputs, `compare_dates` reports exactly the day-number
order of the two parsed dates (earlier / equal flags consistent with the
absolute day distance) and re-renders both in canonical `YYYY-MM-DD` form; the
spec's instance `"2024-01-10"` vs `"2024-01-01"` gives
`date2_earlier`/`difference_days = 9`; an unparseable input yields the
rejection naming the expected format. -/
theorem compare_dates_spec :
    (∀ (fmt : List FTok) (d1 d2 : String) (t1 t2 : Ymd),
      strptime fmt d1 = some t1 → strptime fmt d2 = some t2 →
      compare_dates d1 d2 fmt = Except.ok
        { date1_earlier := decide (toDays t1 < toDays t2)
          date2_earlier := decide (toDays t2 < toDays t1)
          dates_equal := t1 == t2
          difference_days := ((toDays t2 : Int) - (toDays t1 : Int)).natAbs
          date1_parsed := strftimeYmd t1
          date2_parsed := strftimeYmd t2 }) ∧
    compare_dates "2024-01-10" "2024-01-01" fmtYmd = Except.ok
      { date1_earlier := false, date2_earlier := true, dates_equal := false,
        difference_days := 9, date1_parsed := "2024-01-10", date2_parsed := "2024-01-01" } ∧
    (∀ (fmt : List FTok) (d1 d2 : String),
      (strptime fmt d1 = none ∨ strptime fmt d2 = none) →
      ∃ rest, compare_dates d1 d2 fmt
        = Except.error ("Invalid date format. Expected format: " ++ renderFmt fmt
            ++ ". Error: " ++ rest)) := by
  refine ⟨?_, by rfl, ?_⟩
  · intro fmt d1 d2 t1 t2 h1 h2
    have v1 := strptime_valid fmt d1 t1 h1
    have v2 := strptime_valid fmt d2 t2 h2
    unfold compare_dates
    rw [h1, h2]
    dsimp only
    rw [ymdLt_eq_decide_toDays t1 t2 v1 v2, ymdLt_eq_decide_toDays t2 t1 v2 v1]
  · intro fmt d1 d2 hbad
    unfold compare_dates
    rcases hbad with hnone | hnone
    · rw [hnone]
      exact ⟨strptimeErr fmt d1, rfl⟩
    · cases hc : strptime fmt d1 with
      | none => exact ⟨strptimeErr fmt d1, rfl⟩
      | some t1 =>
          rw [hnone]
          exact ⟨strptimeErr fmt d2, rfl⟩

/-- C8 witness: a parseable pair (with a non-zero-padded day re-rendered
canonically) and an unparseable input. -/
theorem compare_dates_spec_witness :
    compare_dates "2024-03-01" "2024-2-5" fmtYmd = Except.ok
      { date1_earlier := decide (toDays ⟨2024, 3, 1⟩ < toDays ⟨2024, 2, 5⟩)
        date2_earlier := decide (toDays ⟨2024, 2, 5⟩ < toDays ⟨2024, 3, 1⟩)
        dates_equal := (⟨2024, 3, 1⟩ : Ymd) == ⟨2024, 2, 5⟩
        difference_days := ((toDays (⟨2024, 2, 5⟩ : Ymd) : Int)
            - (toDays (⟨2024, 3, 1⟩ : Ymd) : Int)).natAbs
        date1_parsed := strftimeYmd ⟨2024, 3, 1⟩
        date2_parsed := strftimeYmd ⟨2024, 2, 5⟩ } ∧
    ∃ rest, compare_dates "01/02/2024" "2024-01-01" fmtYmd
      = Except.error ("Invalid date format. Expected format: " ++ renderFmt fmtYmd
          ++ ". Error: " ++ rest) :=
  ⟨compare_dates_spec.1 fmtYmd "2024-03-01" "2024-2-5" ⟨2024, 3, 1⟩ ⟨2024, 2, 5⟩
      (by decide) (by decide),
   compare_dates_spec.2.2 fmtYmd "01/02/2024" "2024-01-01" (Or.inl (by decide))⟩
